import Mathlib

-- Verification development for the wintern execution core:
-- scheduling (calculate_next_run_at), the seen-content deduplication store
-- (record_seen_content_batch, get_seen_hashes), the execution orchestrator
-- (execute_wintern), the wintern CRUD operations touching next_run_at, and
-- the Slack delivery adapter.  Each definition is a shallow embedding of the
-- Python function of the same name.

namespace WinternCore

-- ---------------------------------------------------------------------------
-- Scheduling (src/wintern/execution/service.py)
-- ---------------------------------------------------------------------------

/-- Minutes in a day; times are modelled as minutes since an epoch, in UTC. -/
def minutesPerDay : Nat := 1440

/-- Modelled from the croniter dependency as used by calculate_next_run_at: a
daily cron expression of the form "M H * * *" (the shape exercised by the spec,
e.g. "0 9 * * *"), firing every day at the given hour and minute.  The fields
are listed minute-first, matching the cron field order. -/
structure DailyCron where
  minute : Nat
  hour : Nat
deriving Repr, DecidableEq

/-- Minute-of-day at which the daily cron expression fires. -/
def DailyCron.fireOffset (c : DailyCron) : Nat := c.hour * 60 + c.minute

/-- Modelled from croniter.get_next: the earliest time strictly after base
whose minute-of-day equals the fire offset of the expression. -/
def croniterGetNext (c : DailyCron) (base : Nat) : Nat :=
  let candidate := base / minutesPerDay * minutesPerDay + c.fireOffset
  if base < candidate then candidate else candidate + minutesPerDay

/-- calculate_next_run_at from execution/service.py: next run time strictly
after base_time, computed from the cron expression via croniter.  The Python
code defaults base_time to now and re-tags naive results as UTC; both are
identities in this time model. -/
def calculate_next_run_at (cron_schedule : DailyCron) (base_time : Nat) : Nat :=
  croniterGetNext cron_schedule base_time

-- ---------------------------------------------------------------------------
-- Seen-content deduplication store (execution/service.py, execution/models.py)
-- ---------------------------------------------------------------------------

/-- compute_content_hash from execution/service.py computes
hashlib.sha256(url.encode("utf-8")).hexdigest(), a pure deterministic digest
of the URL string.  The claims under verification depend only on the digest
being a pure function of the URL, so the digest is modelled as the URL string
itself: a faithful deterministic stand-in for the hex digest. -/
def compute_content_hash (url : String) : String := url

/-- Row of the seen_content table (execution/models.py, class SeenContent).
The seen_at timestamp plays no role in the claims and is omitted. -/
structure SeenContent where
  wintern_id : Nat
  run_id : Nat
  content_hash : String
  source_type : String
  source_url : String
deriving Repr, DecidableEq

/-- State of the seen_content table: rows in insertion order. -/
abbrev SeenStore := List SeenContent

/-- Test for presence of a row with the given (wintern_id, content_hash). -/
def hasRow (s : SeenStore) (wid : Nat) (h : String) : Bool :=
  s.any (fun r => r.wintern_id == wid && r.content_hash == h)

/-- get_seen_hashes from execution/service.py: every content hash ever
recorded for the wintern (not scoped by run). -/
def get_seen_hashes (s : SeenStore) (wid : Nat) : List String :=
  (s.filter (fun r => r.wintern_id == wid)).map (fun r => r.content_hash)

/-- Uniqueness constraint uq_seen_content_wintern_hash on
(wintern_id, content_hash) from execution/models.py SeenContent.__table_args__:
no two rows agree on both fields. -/
def uniqueWinternHash (s : SeenStore) : Prop :=
  List.Pairwise
    (fun a b => ¬(a.wintern_id = b.wintern_id ∧ a.content_hash = b.content_hash)) s

/-- record_seen_content_batch from execution/service.py: a single
INSERT ... ON CONFLICT (wintern_id, content_hash) DO NOTHING over the batch of
(url, source_type) items; conflicting rows, including conflicts arising among
the values of the same statement, are silently skipped.  Returns the updated
table together with the statement rowcount (rows actually inserted).  An empty
batch short-circuits to rowcount 0 before any statement is built. -/
def record_seen_content_batch (s : SeenStore) (wid rid : Nat) :
    List (String × String) → SeenStore × Nat
  | [] => (s, 0)
  | it :: rest =>
    if hasRow s wid (compute_content_hash it.fst) then
      record_seen_content_batch s wid rid rest
    else
      let res := record_seen_content_batch
        (s ++ [⟨wid, rid, compute_content_hash it.fst, it.snd, it.fst⟩]) wid rid rest
      (res.fst, res.snd + 1)

/-- Number of rows for a given (wintern_id, content_hash) pair. -/
def countRows (s : SeenStore) (wid : Nat) (h : String) : Nat :=
  (s.filter (fun r => r.wintern_id == wid && r.content_hash == h)).length

-- ---------------------------------------------------------------------------
-- Wintern configuration data model (winterns/models.py)
-- ---------------------------------------------------------------------------

/-- SourceType enum from winterns/models.py. -/
inductive SourceType
  | brave_search
  | reddit
  | rss
  | news_api
deriving Repr, DecidableEq

/-- String value of a SourceType member, as Python .value. -/
def SourceType.value : SourceType → String
  | .brave_search => "brave_search"
  | .reddit => "reddit"
  | .rss => "rss"
  | .news_api => "news_api"

/-- DeliveryType enum from winterns/models.py. -/
inductive DeliveryType
  | slack
  | email
  | sms
deriving Repr, DecidableEq

/-- String value of a DeliveryType member, as Python .value. -/
def DeliveryType.value : DeliveryType → String
  | .slack => "slack"
  | .email => "email"
  | .sms => "sms"

/-- SourceConfig row (winterns/models.py), restricted to the fields the
orchestrator reads: the type tag and the is_active flag.  The free-form
config dict is consumed only inside the adapters. -/
structure SourceConfig where
  source_type : SourceType
  is_active : Bool
deriving Repr, DecidableEq

/-- DeliveryConfig row (winterns/models.py), restricted likewise. -/
structure DeliveryConfig where
  delivery_type : DeliveryType
  is_active : Bool
deriving Repr, DecidableEq

/-- Wintern row (winterns/models.py) with its eagerly loaded config
collections.  Ids are modelled as naturals; name/description do not influence
any claim and are omitted. -/
structure Wintern where
  id : Nat
  context : String
  cron_schedule : Option DailyCron
  next_run_at : Option Nat
  is_active : Bool
  source_configs : List SourceConfig
  delivery_configs : List DeliveryConfig
deriving Repr, DecidableEq

/-- update_next_run_at from execution/service.py: recompute next_run_at from
the cron schedule alone (None when the schedule is absent).  The is_active
flag is not consulted. -/
def update_next_run_at (now : Nat) (w : Wintern) : Wintern :=
  { w with next_run_at := w.cron_schedule.map (fun c => calculate_next_run_at c now) }

-- ---------------------------------------------------------------------------
-- Agent input/output shapes (agents/interpreter.py, curator.py, composer.py,
-- sources/schemas.py, delivery/schemas.py)
-- ---------------------------------------------------------------------------

/-- SearchResult from sources/schemas.py.  The published_at timestamp is kept
as its ISO rendering; the free-form metadata bag is opaque to the orchestrator
and omitted. -/
structure SearchResult where
  url : String
  title : String
  snippet : String
  source : String
  published_date : Option String
deriving Repr, DecidableEq

/-- InterpretedContext from agents/interpreter.py, restricted to the field the
orchestrator consumes (search_queries); the relevance/exclusion/entity fields
are threaded through to the curator unmodified and carry no information the
claims depend on. -/
structure InterpretedContext where
  search_queries : List String
deriving Repr, DecidableEq

/-- ScrapedItem from agents/curator.py. -/
structure ScrapedItem where
  url : String
  title : String
  snippet : String
  source : String
  published_date : Option String
deriving Repr, DecidableEq

/-- search_result_to_scraped_item from execution/executor.py. -/
def search_result_to_scraped_item (r : SearchResult) : ScrapedItem :=
  ⟨r.url, r.title, r.snippet, r.source, r.published_date⟩

/-- ScoredItem from agents/curator.py. -/
structure ScoredItem where
  url : String
  title : String
  relevance_score : Nat
  reasoning : String
  key_excerpt : Option String
deriving Repr, DecidableEq

/-- CuratedContent from agents/curator.py. -/
structure CuratedContent where
  items : List ScoredItem
  summary : String
deriving Repr, DecidableEq

/-- CuratorInput from agents/curator.py. -/
structure CuratorInput where
  interpreted_context : InterpretedContext
  items : List ScrapedItem
deriving Repr, DecidableEq

/-- DeliveryChannel enum from agents/composer.py. -/
inductive AgentDeliveryChannel
  | slack
  | email
  | sms
deriving Repr, DecidableEq

/-- delivery_type_to_agent_channel from execution/executor.py. -/
def delivery_type_to_agent_channel : DeliveryType → AgentDeliveryChannel
  | .slack => .slack
  | .email => .email
  | .sms => .sms

/-- ComposerInput from agents/composer.py; user_context is always the default
UserContext() in the orchestrator and is omitted. -/
structure ComposerInput where
  curated_content : CuratedContent
  channel : AgentDeliveryChannel
  research_topic : String
deriving Repr, DecidableEq

/-- DigestContent from agents/composer.py (body_html exists in the source but
is never read by the orchestrator). -/
structure DigestContent where
  subject : String
  body_plain : String
  body_slack : String
  item_count : Nat
deriving Repr, DecidableEq

/-- DeliveryItem from delivery/schemas.py. -/
structure DeliveryItem where
  url : String
  title : String
  relevance_score : Nat
  reasoning : String
  key_excerpt : Option String
deriving Repr, DecidableEq

/-- scored_item_to_delivery_item from execution/executor.py. -/
def scored_item_to_delivery_item (i : ScoredItem) : DeliveryItem :=
  ⟨i.url, i.title, i.relevance_score, i.reasoning, i.key_excerpt⟩

/-- DeliveryPayload from delivery/schemas.py. -/
structure DeliveryPayload where
  subject : String
  body : String
  items : List DeliveryItem
deriving Repr, DecidableEq

/-- DeliveryResult from delivery/schemas.py. -/
structure DeliveryResult where
  success : Bool
  channel : String
  error_message : Option String
deriving Repr, DecidableEq

-- ---------------------------------------------------------------------------
-- Run lifecycle (execution/models.py, execution/service.py)
-- ---------------------------------------------------------------------------

/-- RunStatus enum from execution/models.py. -/
inductive RunStatus
  | pending
  | running
  | completed
  | failed
deriving Repr, DecidableEq

/-- One entry of the metadata deliveries log built in execute_wintern. -/
structure DeliveryRecord where
  channel : String
  success : Bool
  error : Option String
deriving Repr, DecidableEq

/-- The metadata dict accumulated by execute_wintern. -/
structure RunMetadata where
  total_searched : Nat
  new_content : Nat
  curated : Nat
  source_errors : List String
  deliveries : List DeliveryRecord
deriving Repr, DecidableEq

/-- Initial metadata dict of execute_wintern. -/
def initMetadata : RunMetadata := ⟨0, 0, 0, [], []⟩

/-- WinternRun row (execution/models.py); started_at/completed_at timestamps
are omitted, every other field written by the lifecycle operations is kept. -/
structure WinternRun where
  id : Nat
  wintern_id : Nat
  status : RunStatus
  error_message : Option String
  digest_content : Option String
  metadata : Option RunMetadata
deriving Repr, DecidableEq

/-- create_run from execution/service.py: new run in PENDING status. -/
def create_run (rid wid : Nat) : WinternRun :=
  ⟨rid, wid, .pending, none, none, none⟩

/-- start_run from execution/service.py. -/
def start_run (r : WinternRun) : WinternRun :=
  { r with status := .running }

/-- complete_run from execution/service.py. -/
def complete_run (r : WinternRun) (digest_content : String) (md : RunMetadata) :
    WinternRun :=
  { r with status := .completed, digest_content := some digest_content,
           metadata := some md }

/-- fail_run from execution/service.py. -/
def fail_run (r : WinternRun) (error_message : String) (md : RunMetadata) :
    WinternRun :=
  { r with status := .failed, error_message := some error_message,
           metadata := some md }

-- ---------------------------------------------------------------------------
-- Factories (execution/factories.py)
-- ---------------------------------------------------------------------------

/-- create_data_source from execution/factories.py, at the granularity the
orchestrator observes: for the implemented types it yields the source_name
property of the constructed adapter ("brave_search" / "reddit"); for RSS and
NEWS_API it raises UnsupportedSourceError, whose str() is
"Unsupported source type: " followed by the enum value. -/
def create_data_source : SourceType → Except String String
  | .brave_search => .ok "brave_search"
  | .reddit => .ok "reddit"
  | .rss => .error ("Unsupported source type: " ++ SourceType.value .rss)
  | .news_api => .error ("Unsupported source type: " ++ SourceType.value .news_api)

/-- create_delivery_channel from execution/factories.py: SLACK constructs a
SlackDelivery (whose channel_name is "slack"); EMAIL and SMS raise
UnsupportedDeliveryError with the analogous message. -/
def create_delivery_channel : DeliveryType → Except String String
  | .slack => .ok "slack"
  | .email => .error ("Unsupported delivery type: " ++ DeliveryType.value .email)
  | .sms => .error ("Unsupported delivery type: " ++ DeliveryType.value .sms)

-- ---------------------------------------------------------------------------
-- Execution orchestrator (execution/executor.py)
-- ---------------------------------------------------------------------------

/-- Outcome of one call to a delivery channel adapter as seen by the
orchestrator: either a returned DeliveryResult, or an exception the adapter
failed to convert into a result. -/
inductive DeliverOutcome
  | returned (r : DeliveryResult)
  | raised (msg : String)
deriving Repr, DecidableEq

/-- Environment of one orchestration: the run id allocated by create_run, the
current time used for rescheduling, and the behaviour of every external
collaborator (interpreter, per-source search, curator, composer, and the
delivery adapters, the last indexed by position among the active delivery
configs).  A .error value models the call raising an exception whose str()
is the carried message. -/
structure ExecEnv where
  runId : Nat
  now : Nat
  interpret : String → Except String InterpretedContext
  search : SourceType → String → Except String (List SearchResult)
  curate : CuratorInput → Except String CuratedContent
  compose : ComposerInput → Except String DigestContent
  deliver : Nat → DeliveryType → DeliveryPayload → DeliverOutcome

/-- Observable step of one orchestration, in execution order. -/
inductive Event
  | runCreated (rid : Nat)
  | runStarted (rid : Nat)
  | interpreterCalled
  | curatorCalled
  | seenRecorded (wid rid : Nat) (items : List (String × String))
  | composerCalled
  | deliveryAttempted (channel : String)
  | runCompleted (rid : Nat) (digest : String) (md : RunMetadata)
  | runFailed (rid : Nat) (message : String) (md : RunMetadata)
  | scheduleAdvanced (wid : Nat)
deriving Repr, DecidableEq

/-- Terminal run-state writes are the completed/failed transitions. -/
def Event.isTerminal : Event → Bool
  | .runCompleted _ _ _ => true
  | .runFailed _ _ _ => true
  | _ => false

/-- Schedule-advance write (update_next_run_at call). -/
def Event.isScheduleAdvance : Event → Bool
  | .scheduleAdvanced _ => true
  | _ => false

/-- Number of terminal run-state writes in a trace. -/
def terminalCount (tr : List Event) : Nat :=
  tr.countP (fun e => e.isTerminal)

/-- Number of schedule-advance writes in a trace. -/
def scheduleCount (tr : List Event) : Nat :=
  tr.countP (fun e => e.isScheduleAdvance)

/-- Errors propagated by execute_wintern to its caller. -/
inductive ExecError
  | executionError (msg : String)
  | noSourcesConfigured (wid : Nat)
  | noDeliveryConfigured (wid : Nat)
deriving Repr, DecidableEq

/-- Decidable equality on Except values with decidable components. -/
instance exceptDecEq {ε α : Type} [DecidableEq ε] [DecidableEq α] :
    DecidableEq (Except ε α) := fun a b =>
  match a, b with
  | .ok x, .ok y =>
    match decEq x y with
    | isTrue h => isTrue (by rw [h])
    | isFalse h => isFalse (fun hc => h (by cases hc; rfl))
  | .error x, .error y =>
    match decEq x y with
    | isTrue h => isTrue (by rw [h])
    | isFalse h => isFalse (fun hc => h (by cases hc; rfl))
  | .ok _, .error _ => isFalse (fun hc => Except.noConfusion hc)
  | .error _, .ok _ => isFalse (fun hc => Except.noConfusion hc)

/-- Full observable outcome of one execute_wintern call: the event trace, the
final run record, the rescheduled wintern, the seen-content table, and the
returned run id or propagated error. -/
structure ExecOutcome where
  trace : List Event
  run : WinternRun
  wintern : Wintern
  store : SeenStore
  result : Except ExecError Nat
deriving Repr, DecidableEq

/-- Active source configs, as filtered in execute_wintern. -/
def activeSources (w : Wintern) : List SourceConfig :=
  w.source_configs.filter (fun s => s.is_active)

/-- Active delivery configs, as filtered in execute_wintern. -/
def activeDeliveries (w : Wintern) : List DeliveryConfig :=
  w.delivery_configs.filter (fun d => d.is_active)

/-- Inner query loop of the search fan-out (execute_wintern step 2) for one
supported source, processing queries in order: a succeeding query contributes
its results; a failing query is caught and logged into source_errors as
"name: message", and the loop continues with the remaining queries. -/
def searchSource (env : ExecEnv) (st : SourceType) (name : String) :
    List String → List SearchResult × List String
  | [] => ([], [])
  | q :: rest =>
    let tail := searchSource env st name rest
    match env.search st q with
    | .ok rs => (rs ++ tail.fst, tail.snd)
    | .error e => (tail.fst, (name ++ ": " ++ e) :: tail.snd)

/-- Outer loop of the search fan-out over every active source in order: an
unsupported source type is caught and its message appended to source_errors,
and the loop moves on to the next source. -/
def searchPhase (env : ExecEnv) (sources : List SourceConfig)
    (queries : List String) : List SearchResult × List String :=
  match sources with
  | [] => ([], [])
  | sc :: rest =>
    let tail := searchPhase env rest queries
    match create_data_source sc.source_type with
    | .error e => (tail.fst, e :: tail.snd)
    | .ok name =>
      let r := searchSource env sc.source_type name queries
      (r.fst ++ tail.fst, r.snd ++ tail.snd)

/-- Results contributed by one query against one source: all results when the
search succeeds, none when it fails. -/
def querySuccesses (env : ExecEnv) (st : SourceType) (q : String) :
    List SearchResult :=
  match env.search st q with
  | .ok rs => rs
  | .error _ => []

/-- Error entry contributed by one query against one source: none when the
search succeeds, the "name: message" string when it fails. -/
def queryError (env : ExecEnv) (st : SourceType) (name : String) (q : String) :
    Option String :=
  match env.search st q with
  | .ok _ => none
  | .error e => some (name ++ ": " ++ e)

/-- Closed form of the results accumulated by the search fan-out: every
result of every succeeding (source, query) call, in loop order. -/
def searchResultsSpec (env : ExecEnv) (sources : List SourceConfig)
    (queries : List String) : List SearchResult :=
  sources.flatMap (fun sc =>
    match create_data_source sc.source_type with
    | .error _ => []
    | .ok _ => queries.flatMap (querySuccesses env sc.source_type))

/-- Closed form of the source_errors accumulated by the search fan-out: one
"name: message" entry per failing (source, query) call, plus one
unsupported-type message per unsupported source, in loop order. -/
def searchErrorsSpec (env : ExecEnv) (sources : List SourceConfig)
    (queries : List String) : List String :=
  sources.flatMap (fun sc =>
    match create_data_source sc.source_type with
    | .error e => [e]
    | .ok name => queries.filterMap (queryError env sc.source_type name))

/-- Deduplication step (execute_wintern step 3): walk the accumulated results
in order, keeping a result only when its content hash is not in the seen set,
and adding the hash to the in-memory set immediately so that duplicates within
the same batch also collapse. -/
def dedupResults (seen : List String) : List SearchResult → List SearchResult
  | [] => []
  | r :: rest =>
    if seen.contains (compute_content_hash r.url) then dedupResults seen rest
    else r :: dedupResults (seen ++ [compute_content_hash r.url]) rest

/-- The new (deduplicated) results of one orchestration, given the interpreted
context: the search fan-out output deduplicated against the seen hashes of the
wintern. -/
def newContent (env : ExecEnv) (w : Wintern) (store : SeenStore)
    (ctx : InterpretedContext) : List SearchResult :=
  dedupResults (get_seen_hashes store w.id)
    (searchPhase env (activeSources w) ctx.search_queries).fst

/-- The (url, source) items batch-recorded as seen content in step 5: all new
results, not only the curated subset. -/
def recordedItems (env : ExecEnv) (w : Wintern) (store : SeenStore)
    (ctx : InterpretedContext) : List (String × String) :=
  (newContent env w store ctx).map (fun r => (r.url, r.source))

/-- One iteration of the delivery fan-out (execute_wintern step 7):
UnsupportedDeliveryError from the factory and any exception from the adapter
are both caught and logged as a failed delivery entry keyed by the config
delivery type value; a returned result is logged as-is. -/
def deliverOne (env : ExecEnv) (payload : DeliveryPayload) (idx : Nat)
    (dc : DeliveryConfig) : DeliveryRecord :=
  match create_delivery_channel dc.delivery_type with
  | .error e => ⟨DeliveryType.value dc.delivery_type, false, some e⟩
  | .ok _ =>
    match env.deliver idx dc.delivery_type payload with
    | .returned r => ⟨r.channel, r.success, r.error_message⟩
    | .raised m => ⟨DeliveryType.value dc.delivery_type, false, some m⟩

/-- Delivery fan-out over every active delivery config. -/
def deliveryPhase (env : ExecEnv) (payload : DeliveryPayload)
    (dcs : List DeliveryConfig) : List DeliveryRecord :=
  (dcs.enum).map (fun p => deliverOne env payload p.fst p.snd)

/-- Trace fragment of the delivery fan-out: one attempt per active config. -/
def deliveryEvents (dcs : List DeliveryConfig) : List Event :=
  dcs.map (fun dc => Event.deliveryAttempted (DeliveryType.value dc.delivery_type))

/-- execute_wintern from execution/executor.py, with the wintern already
loaded (the not-found path raises before any run record exists and is outside
this function).  Every branch mirrors one exit path of the Python function:
the no-sources / no-deliveries failures, the interpreter-failure catch-all,
the no-new-content and no-relevant-content early completions, the
curator/composer failure catch-alls, and the full success path.  Each branch
records its trace, the final run record, the rescheduled wintern, the
seen-content table and the value returned or error raised. -/
def execute_wintern (env : ExecEnv) (w : Wintern) (store : SeenStore) :
    ExecOutcome :=
  let rid := env.runId
  let run1 := start_run (create_run rid w.id)
  let pre : List Event := [.runCreated rid, .runStarted rid]
  match activeSources w with
  | [] =>
    { trace := pre ++ [.runFailed rid "No active sources configured" initMetadata,
        .scheduleAdvanced w.id]
      run := fail_run run1 "No active sources configured" initMetadata
      wintern := update_next_run_at env.now w
      store := store
      result := .error (.noSourcesConfigured w.id) }
  | _ :: _ =>
    match activeDeliveries w with
    | [] =>
      { trace := pre ++ [.runFailed rid "No active delivery channels configured"
          initMetadata, .scheduleAdvanced w.id]
        run := fail_run run1 "No active delivery channels configured" initMetadata
        wintern := update_next_run_at env.now w
        store := store
        result := .error (.noDeliveryConfigured w.id) }
    | d0 :: _ =>
      match env.interpret w.context with
      | .error e =>
        { trace := pre ++ [.interpreterCalled, .runFailed rid e initMetadata,
            .scheduleAdvanced w.id]
          run := fail_run run1 e initMetadata
          wintern := update_next_run_at env.now w
          store := store
          result := .error (.executionError ("Execution failed: " ++ e)) }
      | .ok ctx =>
        let sp := searchPhase env (activeSources w) ctx.search_queries
        let md1 : RunMetadata :=
          { initMetadata with total_searched := sp.fst.length,
                              source_errors := sp.snd }
        let newResults := newContent env w store ctx
        let md2 : RunMetadata := { md1 with new_content := newResults.length }
        match newResults with
        | [] =>
          { trace := pre ++ [.interpreterCalled,
              .runCompleted rid "No new content found." md2,
              .scheduleAdvanced w.id]
            run := complete_run run1 "No new content found." md2
            wintern := update_next_run_at env.now w
            store := store
            result := .ok rid }
        | _ :: _ =>
          match env.curate ⟨ctx, newResults.map search_result_to_scraped_item⟩ with
          | .error e =>
            { trace := pre ++ [.interpreterCalled, .curatorCalled,
                .runFailed rid e md2, .scheduleAdvanced w.id]
              run := fail_run run1 e md2
              wintern := update_next_run_at env.now w
              store := store
              result := .error (.executionError ("Execution failed: " ++ e)) }
          | .ok curated =>
            let md3 : RunMetadata := { md2 with curated := curated.items.length }
            let items := recordedItems env w store ctx
            let store1 := (record_seen_content_batch store w.id rid items).fst
            match curated.items with
            | [] =>
              { trace := pre ++ [.interpreterCalled, .curatorCalled,
                  .seenRecorded w.id rid items,
                  .runCompleted rid "No relevant content found after curation." md3,
                  .scheduleAdvanced w.id]
                run := complete_run run1 "No relevant content found after curation." md3
                wintern := update_next_run_at env.now w
                store := store1
                result := .ok rid }
            | _ :: _ =>
              match env.compose ⟨curated,
                  delivery_type_to_agent_channel d0.delivery_type,
                  w.context.take 200⟩ with
              | .error e =>
                { trace := pre ++ [.interpreterCalled, .curatorCalled,
                    .seenRecorded w.id rid items, .composerCalled,
                    .runFailed rid e md3, .scheduleAdvanced w.id]
                  run := fail_run run1 e md3
                  wintern := update_next_run_at env.now w
                  store := store1
                  result := .error (.executionError ("Execution failed: " ++ e)) }
              | .ok digest =>
                let payload : DeliveryPayload :=
                  ⟨digest.subject, digest.body_slack,
                    curated.items.map scored_item_to_delivery_item⟩
                let dels := deliveryPhase env payload (activeDeliveries w)
                let md4 : RunMetadata := { md3 with deliveries := dels }
                { trace := pre ++ [.interpreterCalled, .curatorCalled,
                    .seenRecorded w.id rid items, .composerCalled]
                    ++ deliveryEvents (activeDeliveries w)
                    ++ [.runCompleted rid digest.body_plain md4,
                        .scheduleAdvanced w.id]
                  run := complete_run run1 digest.body_plain md4
                  wintern := update_next_run_at env.now w
                  store := store1
                  result := .ok rid }

-- ---------------------------------------------------------------------------
-- Slack delivery adapter (delivery/slack.py)
-- ---------------------------------------------------------------------------

/-- Outcome of one AsyncWebhookClient.send call: a completed HTTP response
(status code and body), a SlackApiError raised by the sdk, or an exception
outside the sdk error hierarchy (for example a raw transport failure from the
underlying HTTP client, which the webhook client re-raises unwrapped). -/
inductive ClientOutcome
  | response (status : Nat) (body : String)
  | apiError (msg : String)
  | transportError (msg : String)
deriving Repr, DecidableEq

/-- Exceptions that can leave send_slack: the three SlackError subclasses
declared in delivery/slack.py, plus exceptions outside that hierarchy. -/
inductive SlackExc
  | webhookMissing (msg : String)
  | webhookError (msg : String) (status_code : Option Nat)
  | rateLimit (retry_after : Option Nat)
  | unhandled (msg : String)
deriving Repr, DecidableEq

/-- Membership in the SlackError exception hierarchy, which is what the
except clause of SlackDelivery.deliver catches. -/
def SlackExc.isSlackError : SlackExc → Bool
  | .unhandled _ => false
  | _ => true

/-- str() of the exception, following each __init__ in delivery/slack.py. -/
def SlackExc.message : SlackExc → String
  | .webhookMissing m => m
  | .webhookError m _ => "Slack webhook error: " ++ m
  | .rateLimit none => "Rate limited by Slack"
  | .rateLimit (some n) =>
      "Rate limited by Slack, retry after " ++ toString n ++ "s"
  | .unhandled m => m

/-- send_slack from delivery/slack.py: raises SlackWebhookMissingError on an
empty webhook URL; otherwise performs the client send and maps a 200 response
to success, a 429 response to SlackRateLimitError, any other response to
SlackWebhookError, and a SlackApiError from the client to SlackWebhookError.
An exception outside SlackApiError is not caught and leaves as-is. -/
def send_slack (webhook_url : String) (outcome : ClientOutcome) :
    Except SlackExc Bool :=
  if webhook_url = "" then
    .error (.webhookMissing "Slack webhook URL is required")
  else
    match outcome with
    | .response status body =>
      if status = 200 then .ok true
      else if status = 429 then .error (.rateLimit none)
      else .error (.webhookError ("Unexpected response: " ++ body) (some status))
    | .apiError m => .error (.webhookError m none)
    | .transportError m => .error (.unhandled m)

/-- SlackDelivery.deliver from delivery/slack.py: calls send_slack with the
resolved webhook URL and catches exactly the SlackError hierarchy, converting
it into a success=false DeliveryResult carrying str(e); any other exception
propagates across the interface boundary (modelled as .error with str(e)). -/
def SlackDelivery.deliver (webhook_url : String) (outcome : ClientOutcome) :
    Except String DeliveryResult :=
  match send_slack webhook_url outcome with
  | .ok _ => .ok ⟨true, "slack", none⟩
  | .error e =>
    if e.isSlackError then .ok ⟨false, "slack", some e.message⟩
    else .error e.message

-- ---------------------------------------------------------------------------
-- Wintern CRUD operations touching next_run_at (winterns/service.py)
-- ---------------------------------------------------------------------------

/-- The scheduling invariant stated by the spec: next_run_at is non-null
exactly when the wintern is active and has a schedule. -/
def scheduleInvariant (w : Wintern) : Prop :=
  w.next_run_at.isSome ↔ (w.is_active = true ∧ w.cron_schedule.isSome)

/-- create_wintern from winterns/service.py: next_run_at is computed when a
cron schedule is supplied, else left null; is_active takes the model default
True (WinternCreate has no is_active field). -/
def create_wintern (id : Nat) (context : String) (cron : Option DailyCron)
    (srcs : List SourceConfig) (dels : List DeliveryConfig) (now : Nat) :
    Wintern :=
  { id := id, context := context, cron_schedule := cron,
    next_run_at := cron.map (fun c => calculate_next_run_at c now),
    is_active := true, source_configs := srcs, delivery_configs := dels }

/-- WinternUpdate payload with exclude_unset semantics: none means the field
was not provided.  Fields not touching the invariant are omitted. -/
structure WinternUpdateData where
  is_active : Option Bool
  cron_schedule : Option (Option DailyCron)
deriving Repr, DecidableEq

/-- update_wintern from winterns/service.py: apply the provided fields, then
recompute next_run_at only when is_active or cron_schedule was provided,
setting it iff the updated wintern is active and has a schedule. -/
def update_wintern (w : Wintern) (u : WinternUpdateData) (now : Nat) : Wintern :=
  let w1 := { w with is_active := u.is_active.getD w.is_active,
                     cron_schedule := u.cron_schedule.getD w.cron_schedule }
  if u.is_active.isSome || u.cron_schedule.isSome then
    { w1 with next_run_at :=
        match w1.is_active, w1.cron_schedule with
        | true, some c => some (calculate_next_run_at c now)
        | _, _ => none }
  else w1

/-- delete_wintern from winterns/service.py: soft delete, clearing both the
active flag and next_run_at. -/
def delete_wintern (w : Wintern) : Wintern :=
  { w with is_active := false, next_run_at := none }

-- ---------------------------------------------------------------------------
-- Concrete fixtures used to instantiate the theorems
-- ---------------------------------------------------------------------------

/-- Wintern with one active brave_search source and one active slack delivery. -/
def wBasic : Wintern :=
  { id := 2, context := "topic", cron_schedule := none, next_run_at := none,
    is_active := true, source_configs := [⟨.brave_search, true⟩],
    delivery_configs := [⟨.slack, true⟩] }

/-- Wintern with sources configured but none active. -/
def wNoSources : Wintern :=
  { id := 3, context := "topic", cron_schedule := some ⟨0, 9⟩, next_run_at := none,
    is_active := true, source_configs := [⟨.brave_search, false⟩],
    delivery_configs := [⟨.slack, true⟩] }

/-- Wintern with an active source but no active delivery channel. -/
def wNoDeliveries : Wintern :=
  { id := 4, context := "topic", cron_schedule := some ⟨0, 9⟩, next_run_at := none,
    is_active := true, source_configs := [⟨.brave_search, true⟩],
    delivery_configs := [⟨.slack, false⟩] }

/-- Inactive wintern that still has a cron schedule. -/
def wInactiveScheduled : Wintern :=
  { id := 5, context := "topic", cron_schedule := some ⟨0, 9⟩, next_run_at := none,
    is_active := false, source_configs := [], delivery_configs := [] }

/-- Environment whose searches all return no results. -/
def envNoNew : ExecEnv :=
  { runId := 1, now := 0,
    interpret := fun _ => .ok ⟨["q"]⟩,
    search := fun _ _ => .ok [],
    curate := fun _ => .error "curator should not be called",
    compose := fun _ => .error "composer should not be called",
    deliver := fun _ _ _ => .raised "delivery should not be called" }

/-- Environment whose search finds one result and whose curator filters
everything out. -/
def envCuratedEmpty : ExecEnv :=
  { runId := 6, now := 0,
    interpret := fun _ => .ok ⟨["q"]⟩,
    search := fun _ _ => .ok [⟨"http://a", "A", "snippet", "brave_search", none⟩],
    curate := fun _ => .ok ⟨[], "nothing relevant"⟩,
    compose := fun _ => .error "composer should not be called",
    deliver := fun _ _ _ => .raised "delivery should not be called" }

/-- Environment whose searches all fail but whose agents succeed. -/
def envSearchesFail : ExecEnv :=
  { runId := 8, now := 0,
    interpret := fun _ => .ok ⟨["q"]⟩,
    search := fun _ _ => .error "upstream 500",
    curate := fun _ => .ok ⟨[], "nothing"⟩,
    compose := fun _ => .ok ⟨"subject", "plain body", "slack body", 0⟩,
    deliver := fun _ _ _ => .returned ⟨true, "slack", none⟩ }

-- ---------------------------------------------------------------------------
-- Lemmas about the seen-content store
-- ---------------------------------------------------------------------------

theorem hasRow_append (s t : SeenStore) (wid : Nat) (h : String) :
    hasRow (s ++ t) wid h = (hasRow s wid h || hasRow t wid h) := by
  simp [hasRow, List.any_append]

theorem record_batch_extends (wid rid : Nat) (items : List (String × String)) :
    ∀ s : SeenStore, ∃ extra : SeenStore,
      (record_seen_content_batch s wid rid items).fst = s ++ extra ∧
      extra.length = (record_seen_content_batch s wid rid items).snd ∧
      ∀ r ∈ extra, r.wintern_id = wid ∧ r.run_id = rid ∧
        hasRow s wid r.content_hash = false := by
  induction items with
  | nil =>
    intro s
    exact ⟨[], by simp [record_seen_content_batch]⟩
  | cons it rest ih =>
    intro s
    by_cases hc : hasRow s wid (compute_content_hash it.fst) = true
    · obtain ⟨extra, h1, h2, h3⟩ := ih s
      exact ⟨extra, by simpa [record_seen_content_batch, hc] using h1,
        by simpa [record_seen_content_batch, hc] using h2, h3⟩
    · replace hc : hasRow s wid (compute_content_hash it.fst) = false := by
        simpa using hc
      obtain ⟨extra, h1, h2, h3⟩ :=
        ih (s ++ [⟨wid, rid, compute_content_hash it.fst, it.snd, it.fst⟩])
      refine ⟨⟨wid, rid, compute_content_hash it.fst, it.snd, it.fst⟩ :: extra,
        ?_, ?_, ?_⟩
      · simp only [record_seen_content_batch, hc, Bool.false_eq_true, if_false]
        rw [h1]
        simp
      · simp only [record_seen_content_batch, hc, Bool.false_eq_true, if_false]
        simp [← h2]
      · intro r hr
        rcases List.mem_cons.mp hr with hr | hr
        · subst hr
          exact ⟨rfl, rfl, hc⟩
        · obtain ⟨k1, k2, k3⟩ := h3 r hr
          refine ⟨k1, k2, ?_⟩
          rw [hasRow_append] at k3
          exact (Bool.or_eq_false_iff.mp k3).1

theorem record_batch_mono (wid rid : Nat) (items : List (String × String))
    (s : SeenStore) (h : String) (hh : hasRow s wid h = true) :
    hasRow (record_seen_content_batch s wid rid items).fst wid h = true := by
  obtain ⟨extra, h1, _, _⟩ := record_batch_extends wid rid items s
  rw [h1, hasRow_append, hh, Bool.true_or]

theorem record_batch_member_hasRow (wid rid : Nat) :
    ∀ (items : List (String × String)) (s : SeenStore),
      ∀ it ∈ items,
        hasRow (record_seen_content_batch s wid rid items).fst wid
          (compute_content_hash it.fst) = true := by
  intro items
  induction items with
  | nil => intro s it hit; cases hit
  | cons a rest ih =>
    intro s it hit
    by_cases hc : hasRow s wid (compute_content_hash a.fst) = true
    · rcases List.mem_cons.mp hit with hit | hit
      · subst hit
        simp only [record_seen_content_batch, hc, if_true]
        exact record_batch_mono wid rid rest s _ hc
      · simp only [record_seen_content_batch, hc, if_true]
        exact ih s it hit
    · replace hc : hasRow s wid (compute_content_hash a.fst) = false := by
        simpa using hc
      have hrow : hasRow
          (s ++ [⟨wid, rid, compute_content_hash a.fst, a.snd, a.fst⟩]) wid
          (compute_content_hash a.fst) = true := by
        rw [hasRow_append]
        simp [hasRow]
      rcases List.mem_cons.mp hit with hit | hit
      · subst hit
        simp only [record_seen_content_batch, hc, Bool.false_eq_true, if_false]
        exact record_batch_mono wid rid rest _ _ hrow
      · simp only [record_seen_content_batch, hc, Bool.false_eq_true, if_false]
        exact ih _ it hit

theorem record_batch_noop (wid rid : Nat) :
    ∀ (items : List (String × String)) (s : SeenStore),
      (∀ it ∈ items, hasRow s wid (compute_content_hash it.fst) = true) →
      record_seen_content_batch s wid rid items = (s, 0) := by
  intro items
  induction items with
  | nil => intro s _; rfl
  | cons a rest ih =>
    intro s hall
    have hc : hasRow s wid (compute_content_hash a.fst) = true :=
      hall a (by simp)
    simp only [record_seen_content_batch, hc, if_true]
    exact ih s (fun it hit => hall it (by simp [hit]))

theorem unique_append_row (s : SeenStore) (row : SeenContent)
    (hu : uniqueWinternHash s)
    (habs : hasRow s row.wintern_id row.content_hash = false) :
    uniqueWinternHash (s ++ [row]) := by
  refine List.pairwise_append.mpr ⟨hu, List.pairwise_singleton _ _, ?_⟩
  intro a ha b hb
  have hb2 : b = row := by simpa using hb
  rintro ⟨h1, h2⟩
  rw [hb2] at h1 h2
  have hx : hasRow s row.wintern_id row.content_hash = true := by
    unfold hasRow
    rw [List.any_eq_true]
    exact ⟨a, ha, by simp [h1, h2]⟩
  rw [hx] at habs
  cases habs

theorem record_batch_unique (wid rid : Nat) :
    ∀ (items : List (String × String)) (s : SeenStore),
      uniqueWinternHash s →
      uniqueWinternHash (record_seen_content_batch s wid rid items).fst := by
  intro items
  induction items with
  | nil => intro s hu; exact hu
  | cons a rest ih =>
    intro s hu
    by_cases hc : hasRow s wid (compute_content_hash a.fst) = true
    · simp only [record_seen_content_batch, hc, if_true]
      exact ih s hu
    · replace hc : hasRow s wid (compute_content_hash a.fst) = false := by
        simpa using hc
      simp only [record_seen_content_batch, hc, Bool.false_eq_true, if_false]
      exact ih _ (unique_append_row s _ hu hc)

theorem countRows_le_one (s : SeenStore) (hu : uniqueWinternHash s)
    (wid : Nat) (h : String) : countRows s wid h ≤ 1 := by
  have hsub : List.Pairwise
      (fun a b => ¬(a.wintern_id = b.wintern_id ∧ a.content_hash = b.content_hash))
      (s.filter (fun r => r.wintern_id == wid && r.content_hash == h)) :=
    hu.sublist (List.filter_sublist s)
  unfold countRows
  rcases hfl : s.filter (fun r => r.wintern_id == wid && r.content_hash == h) with
    _ | ⟨a, _ | ⟨b, tl⟩⟩
  · rw [hfl]; simp
  · rw [hfl]; simp
  · exfalso
    rw [hfl] at hsub
    have hRab := (List.pairwise_cons.mp hsub).1 b (by simp)
    have ha : a ∈ s.filter (fun r => r.wintern_id == wid && r.content_hash == h) := by
      rw [hfl]; simp
    have hb : b ∈ s.filter (fun r => r.wintern_id == wid && r.content_hash == h) := by
      rw [hfl]; simp
    have ha2 := List.of_mem_filter ha
    have hb2 := List.of_mem_filter hb
    simp only [Bool.and_eq_true, beq_iff_eq] at ha2 hb2
    exact hRab ⟨ha2.1.trans hb2.1.symm, ha2.2.trans hb2.2.symm⟩

-- ---------------------------------------------------------------------------
-- Claims about the deduplication store
-- ---------------------------------------------------------------------------

/-- C5: the batch seen-content record operation is idempotent.  Re-recording
the same items (under any run id) inserts nothing and reports rowcount 0; the
reported count equals the number of genuinely new rows, which are appended
with the given wintern and run ids and had no prior (wintern, hash) row; the
(wintern_id, content_hash) uniqueness constraint is preserved, so any url is
present at most once for the wintern. -/
theorem record_seen_content_batch_idempotent (s : SeenStore)
    (wid rid rid2 : Nat) (items : List (String × String))
    (hu : uniqueWinternHash s) :
    record_seen_content_batch (record_seen_content_batch s wid rid items).fst
        wid rid2 items
      = ((record_seen_content_batch s wid rid items).fst, 0) ∧
    (∃ extra : SeenStore,
      (record_seen_content_batch s wid rid items).fst = s ++ extra ∧
      extra.length = (record_seen_content_batch s wid rid items).snd ∧
      ∀ r ∈ extra, r.wintern_id = wid ∧ r.run_id = rid ∧
        hasRow s wid r.content_hash = false) ∧
    uniqueWinternHash (record_seen_content_batch s wid rid items).fst ∧
    ∀ u : String,
      countRows (record_seen_content_batch s wid rid items).fst wid
        (compute_content_hash u) ≤ 1 := by
  refine ⟨?_, record_batch_extends wid rid items s, ?_, ?_⟩
  · exact record_batch_noop wid rid2 items _
      (fun it hit => record_batch_member_hasRow wid rid items s it hit)
  · exact record_batch_unique wid rid items s hu
  · intro u
    exact countRows_le_one _ (record_batch_unique wid rid items s hu) wid _

/-- Witness for C5 at a concrete store and batch: recording the same
(wintern, url) item a second time inserts nothing and returns rowcount 0. -/
theorem record_seen_content_batch_idempotent_witness :
    record_seen_content_batch
        (record_seen_content_batch [] 1 10 [("http://a", "brave_search")]).fst
        1 11 [("http://a", "brave_search")]
      = ((record_seen_content_batch [] 1 10 [("http://a", "brave_search")]).fst, 0) :=
  (record_seen_content_batch_idempotent [] 1 10 11 [("http://a", "brave_search")]
    List.Pairwise.nil).1

/-- C10: recording an empty batch returns rowcount 0 and leaves the
seen-content table untouched (the source short-circuits before building the
insert statement). -/
theorem record_seen_content_batch_empty (s : SeenStore) (wid rid : Nat) :
    record_seen_content_batch s wid rid [] = (s, 0) := rfl

-- ---------------------------------------------------------------------------
-- Claim about next-run computation
-- ---------------------------------------------------------------------------

/-- C9: calculate_next_run_at returns the earliest strictly-future firing
time of the cron expression; in particular, for "0 9 * * *" a reference time
of 08:00 on day d yields 09:00 the same day, and 09:30 yields 09:00 the next
day. -/
theorem calculate_next_run_at_correct (c : DailyCron) (base : Nat)
    (hm : c.minute < 60) (hh : c.hour < 24) :
    base < calculate_next_run_at c base ∧
    calculate_next_run_at c base % minutesPerDay = DailyCron.fireOffset c ∧
    (∀ t, base < t → t % minutesPerDay = DailyCron.fireOffset c →
      calculate_next_run_at c base ≤ t) ∧
    (∀ d, calculate_next_run_at ⟨0, 9⟩ (d * minutesPerDay + 480)
      = d * minutesPerDay + 540) ∧
    (∀ d, calculate_next_run_at ⟨0, 9⟩ (d * minutesPerDay + 570)
      = (d + 1) * minutesPerDay + 540) := by
  refine ⟨?_, ?_, ?_, ?_, ?_⟩
  · simp only [calculate_next_run_at, croniterGetNext, DailyCron.fireOffset,
      minutesPerDay]
    split <;> omega
  · simp only [calculate_next_run_at, croniterGetNext, DailyCron.fireOffset,
      minutesPerDay]
    split <;> omega
  · intro t ht hmod
    simp only [calculate_next_run_at, croniterGetNext, DailyCron.fireOffset,
      minutesPerDay] at *
    split <;> omega
  · intro d
    simp only [calculate_next_run_at, croniterGetNext, DailyCron.fireOffset,
      minutesPerDay]
    split <;> omega
  · intro d
    simp only [calculate_next_run_at, croniterGetNext, DailyCron.fireOffset,
      minutesPerDay]
    split <;> omega

/-- Witness for C9 at the concrete inputs of the spec example: day 0 at 08:00
maps to 09:00 of day 0, and 09:30 maps to 09:00 of day 1. -/
theorem calculate_next_run_at_correct_witness :
    calculate_next_run_at ⟨0, 9⟩ 480 = 540 ∧
    calculate_next_run_at ⟨0, 9⟩ 570 = 1980 := by
  have h := calculate_next_run_at_correct ⟨0, 9⟩ 480 (by decide) (by decide)
  have h4 := h.2.2.2.1 0
  have h5 := h.2.2.2.2 0
  simp only [minutesPerDay] at h4 h5
  norm_num at h4 h5
  exact ⟨h4, h5⟩

-- ---------------------------------------------------------------------------
-- Claims about the Slack delivery adapter
-- ---------------------------------------------------------------------------

/-- C7 counterexample: an exception outside the SlackError hierarchy (for
example a raw transport failure re-raised by the webhook client) is not
caught by SlackDelivery.deliver and crosses the interface boundary instead of
being returned as a success=false DeliveryResult. -/
theorem slack_deliver_transport_error_escapes :
    SlackDelivery.deliver "https://hooks.slack.example/T000/B000/XXX"
        (ClientOutcome.transportError "Connection reset by peer")
      = Except.error "Connection reset by peer" := rfl

/-- C7 (amended): SlackDelivery.deliver never raises for a missing webhook
configuration, a rate-limited response, any non-2xx response, or a
SlackApiError from the client: each is converted internally into a
DeliveryResult with channel "slack", success false and a human-readable
message (success is true exactly for a 200 response with a configured URL).
Exceptions from the underlying client outside the SlackError/SlackApiError
hierarchy, such as raw transport errors, propagate to the caller. -/
theorem slack_deliver_no_raise_for_slack_errors (url : String)
    (o : ClientOutcome) (h : ∀ m, o ≠ ClientOutcome.transportError m) :
    ∃ r : DeliveryResult,
      SlackDelivery.deliver url o = Except.ok r ∧
      r.channel = "slack" ∧
      (r.success = true ↔ (¬url = "" ∧ ∃ b, o = ClientOutcome.response 200 b)) ∧
      (r.success = false → ∃ m, r.error_message = some m) := by
  by_cases hu : url = ""
  · cases o with
    | response status body =>
      refine ⟨⟨false, "slack", some "Slack webhook URL is required"⟩, ?_, rfl, ?_, ?_⟩
      · simp [SlackDelivery.deliver, send_slack, hu, SlackExc.isSlackError,
          SlackExc.message]
      · simp [hu]
      · intro _; exact ⟨_, rfl⟩
    | apiError m =>
      refine ⟨⟨false, "slack", some "Slack webhook URL is required"⟩, ?_, rfl, ?_, ?_⟩
      · simp [SlackDelivery.deliver, send_slack, hu, SlackExc.isSlackError,
          SlackExc.message]
      · simp [hu]
      · intro _; exact ⟨_, rfl⟩
    | transportError m => exact absurd rfl (h m)
  · cases o with
    | response status body =>
      by_cases h200 : status = 200
      · refine ⟨⟨true, "slack", none⟩, ?_, rfl, ?_, ?_⟩
        · simp [SlackDelivery.deliver, send_slack, hu, h200]
        · simp [hu, h200]
        · intro hcon; cases hcon
      · by_cases h429 : status = 429
        · refine ⟨⟨false, "slack", some "Rate limited by Slack"⟩, ?_, rfl, ?_, ?_⟩
          · simp [SlackDelivery.deliver, send_slack, hu, h200, h429,
              SlackExc.isSlackError, SlackExc.message]
          · simp [h200]
          · intro _; exact ⟨_, rfl⟩
        · refine ⟨⟨false, "slack",
            some ("Slack webhook error: " ++ ("Unexpected response: " ++ body))⟩,
            ?_, rfl, ?_, ?_⟩
          · simp [SlackDelivery.deliver, send_slack, hu, h200, h429,
              SlackExc.isSlackError, SlackExc.message]
          · simp [h200]
          · intro _; exact ⟨_, rfl⟩
    | apiError m =>
      refine ⟨⟨false, "slack", some ("Slack webhook error: " ++ m)⟩, ?_, rfl, ?_, ?_⟩
      · simp [SlackDelivery.deliver, send_slack, hu, SlackExc.isSlackError,
          SlackExc.message]
      · simp
      · intro _; exact ⟨_, rfl⟩
    | transportError m => exact absurd rfl (h m)

/-- Witness for the amended C7 at a concrete payload outcome: a 200 response
on a configured webhook URL yields a successful DeliveryResult. -/
theorem slack_deliver_no_raise_witness :
    ∃ r : DeliveryResult,
      SlackDelivery.deliver "https://hooks.slack.example/T000/B000/XXX"
          (ClientOutcome.response 200 "ok")
        = Except.ok r ∧
      r.channel = "slack" ∧
      (r.success = true ↔ (¬("https://hooks.slack.example/T000/B000/XXX" : String) = ""
        ∧ ∃ b, ClientOutcome.response 200 "ok" = ClientOutcome.response 200 b)) ∧
      (r.success = false → ∃ m, r.error_message = some m) :=
  slack_deliver_no_raise_for_slack_errors "https://hooks.slack.example/T000/B000/XXX"
    (ClientOutcome.response 200 "ok")
    (fun _ hc => ClientOutcome.noConfusion hc)

-- ---------------------------------------------------------------------------
-- Claims about the next_run_at invariant
-- ---------------------------------------------------------------------------

/-- C8 counterexample: the post-run reschedule (update_next_run_at) does not
consult is_active, so applying it to an inactive wintern that still has a
cron schedule sets next_run_at non-null and breaks the claimed iff-invariant
(reachable: the manual trigger path executes winterns without checking
is_active). -/
theorem update_next_run_at_breaks_schedule_invariant :
    scheduleInvariant wInactiveScheduled ∧
    ¬ scheduleInvariant (update_next_run_at 0 wInactiveScheduled) := by
  constructor
  · simp [scheduleInvariant, wInactiveScheduled]
  · simp [scheduleInvariant, wInactiveScheduled, update_next_run_at]

/-- C8 (amended): the invariant that next_run_at is non-null iff the wintern
is active and has a schedule is established by create_wintern, preserved by
update_wintern (which recomputes whenever is_active or cron_schedule is
provided) and by delete_wintern; the post-run reschedule preserves it only
for winterns that are active or have no schedule, since update_next_run_at
derives next_run_at from the cron schedule alone. -/
theorem schedule_invariant_preservation (w : Wintern) (u : WinternUpdateData)
    (id : Nat) (ctx : String) (cron : Option DailyCron)
    (srcs : List SourceConfig) (dels : List DeliveryConfig)
    (now now2 now3 : Nat) (hw : scheduleInvariant w) :
    scheduleInvariant (create_wintern id ctx cron srcs dels now) ∧
    scheduleInvariant (update_wintern w u now2) ∧
    scheduleInvariant (delete_wintern w) ∧
    (w.is_active = true ∨ w.cron_schedule = none →
      scheduleInvariant (update_next_run_at now3 w)) := by
  refine ⟨?_, ?_, ?_, ?_⟩
  · cases cron <;> simp [scheduleInvariant, create_wintern]
  · unfold update_wintern
    by_cases hprov : (u.is_active.isSome || u.cron_schedule.isSome) = true
    · rw [if_pos hprov]
      rcases hact : u.is_active.getD w.is_active with _ | _ <;>
        rcases hcron : u.cron_schedule.getD w.cron_schedule with _ | c <;>
          simp [scheduleInvariant, hact, hcron]
    · rw [if_neg hprov]
      have hprov2 : u.is_active = none ∧ u.cron_schedule = none := by
        rcases hia : u.is_active with _ | b
        · rcases hcs : u.cron_schedule with _ | c
          · exact ⟨rfl, rfl⟩
          · exact absurd (by simp [hcs]) hprov
        · exact absurd (by simp [hia]) hprov
      simpa [hprov2.1, hprov2.2, scheduleInvariant] using hw
  · simp [scheduleInvariant, delete_wintern]
  · intro hcase
    rcases hcase with ha | hc
    · cases hcron : w.cron_schedule <;>
        simp [scheduleInvariant, update_next_run_at, ha, hcron]
    · simp [scheduleInvariant, update_next_run_at, hc]

-- ---------------------------------------------------------------------------
-- Lemmas about the search fan-out
-- ---------------------------------------------------------------------------

theorem searchSource_spec (env : ExecEnv) (st : SourceType) (name : String)
    (qs : List String) :
    searchSource env st name qs
      = (qs.flatMap (querySuccesses env st),
         qs.filterMap (queryError env st name)) := by
  induction qs with
  | nil => rfl
  | cons q rest ih =>
    rcases hq : env.search st q with e | rs <;>
      simp [searchSource, querySuccesses, queryError, hq, ih]

theorem searchPhase_spec (env : ExecEnv) (ss : List SourceConfig)
    (qs : List String) :
    searchPhase env ss qs
      = (searchResultsSpec env ss qs, searchErrorsSpec env ss qs) := by
  induction ss with
  | nil => rfl
  | cons sc rest ih =>
    rcases hcs : create_data_source sc.source_type with e | name <;>
      simp [searchPhase, searchResultsSpec, searchErrorsSpec, hcs, ih,
        searchSource_spec]

-- ---------------------------------------------------------------------------
-- Claims about the execution orchestrator
-- ---------------------------------------------------------------------------

/-- C1: every execution of execute_wintern (once the run record exists)
writes exactly one terminal run state, advances the schedule exactly once and
unconditionally (the resulting wintern is the rescheduled one), and the final
run status is terminal (completed or failed) - on every exit path of every
environment, wintern and store. -/
theorem execute_wintern_exactly_one_terminal (env : ExecEnv) (w : Wintern)
    (store : SeenStore) :
    terminalCount (execute_wintern env w store).trace = 1 ∧
    scheduleCount (execute_wintern env w store).trace = 1 ∧
    (execute_wintern env w store).wintern = update_next_run_at env.now w ∧
    ((execute_wintern env w store).run.status = RunStatus.completed ∨
      (execute_wintern env w store).run.status = RunStatus.failed) := by
  simp only [execute_wintern]
  split
  · exact ⟨rfl, rfl, rfl, Or.inr rfl⟩
  · split
    · exact ⟨rfl, rfl, rfl, Or.inr rfl⟩
    · split
      · exact ⟨rfl, rfl, rfl, Or.inr rfl⟩
      · split
        · exact ⟨rfl, rfl, rfl, Or.inl rfl⟩
        · split
          · exact ⟨rfl, rfl, rfl, Or.inr rfl⟩
          · split
            · exact ⟨rfl, rfl, rfl, Or.inl rfl⟩
            · split
              · exact ⟨rfl, rfl, rfl, Or.inr rfl⟩
              · refine ⟨?_, ?_, rfl, Or.inl rfl⟩
                · simp [terminalCount, List.countP_append, List.countP_cons,
                    Event.isTerminal]
                  intro a ha
                  simp only [deliveryEvents, List.mem_map] at ha
                  obtain ⟨dc, _, rfl⟩ := ha
                  rfl
                · simp [scheduleCount, List.countP_append, List.countP_cons,
                    Event.isScheduleAdvance]
                  intro a ha
                  simp only [deliveryEvents, List.mem_map] at ha
                  obtain ⟨dc, _, rfl⟩ := ha
                  rfl

/-- C2: when zero search results survive deduplication, the run is completed
(not failed) with the fixed digest "No new content found.", the trace shows
that curator, composer and delivery were never invoked, the wintern is
rescheduled, the seen-content store is untouched, and the run id is
returned. -/
theorem execute_wintern_no_new_content (env : ExecEnv) (w : Wintern)
    (store : SeenStore) (ctx : InterpretedContext)
    (h1 : activeSources w ≠ []) (h2 : activeDeliveries w ≠ [])
    (h3 : env.interpret w.context = Except.ok ctx)
    (h4 : newContent env w store ctx = []) :
    (execute_wintern env w store).result = Except.ok env.runId ∧
    (∃ md : RunMetadata,
      (execute_wintern env w store).trace
        = [Event.runCreated env.runId, Event.runStarted env.runId,
           Event.interpreterCalled,
           Event.runCompleted env.runId "No new content found." md,
           Event.scheduleAdvanced w.id] ∧
      (execute_wintern env w store).run
        = complete_run (start_run (create_run env.runId w.id))
            "No new content found." md) ∧
    (execute_wintern env w store).wintern = update_next_run_at env.now w ∧
    (execute_wintern env w store).store = store := by
  rcases hs : activeSources w with _ | ⟨s0, srest⟩
  · exact absurd hs h1
  rcases hd : activeDeliveries w with _ | ⟨d0, drest⟩
  · exact absurd hd h2
  simp [execute_wintern, hs, hd, h3, h4, complete_run, start_run, create_run]

/-- Witness for C2: an environment whose searches return nothing yields a
completed run returning the allocated run id. -/
theorem execute_wintern_no_new_content_witness :
    (execute_wintern envNoNew wBasic []).result = Except.ok 1 :=
  (execute_wintern_no_new_content envNoNew wBasic [] ⟨["q"]⟩
    (by decide) (by decide) rfl rfl).1

/-- C3: whenever deduplication yields new results and the curator returns,
all deduplicated items (not only the curated subset) are batch-recorded as
seen content tagged with the run id - the store is updated and the
seenRecorded step appears in the trace - and when the curator returned zero
items the trace shows the recording strictly before the completion, the run
is completed (not failed) with the fixed digest
"No relevant content found after curation.", the schedule is advanced and the
run id returned. -/
theorem execute_wintern_records_seen_before_curation_check
    (env : ExecEnv) (w : Wintern) (store : SeenStore) (ctx : InterpretedContext)
    (curated : CuratedContent)
    (h1 : activeSources w ≠ []) (h2 : activeDeliveries w ≠ [])
    (h3 : env.interpret w.context = Except.ok ctx)
    (h4 : newContent env w store ctx ≠ [])
    (h5 : env.curate ⟨ctx, (newContent env w store ctx).map search_result_to_scraped_item⟩
      = Except.ok curated) :
    (execute_wintern env w store).store
      = (record_seen_content_batch store w.id env.runId
          (recordedItems env w store ctx)).fst ∧
    Event.seenRecorded w.id env.runId (recordedItems env w store ctx)
      ∈ (execute_wintern env w store).trace ∧
    (curated.items = [] →
      ∃ md : RunMetadata,
        (execute_wintern env w store).trace
          = [Event.runCreated env.runId, Event.runStarted env.runId,
             Event.interpreterCalled, Event.curatorCalled,
             Event.seenRecorded w.id env.runId (recordedItems env w store ctx),
             Event.runCompleted env.runId
               "No relevant content found after curation." md,
             Event.scheduleAdvanced w.id] ∧
        (execute_wintern env w store).run
          = complete_run (start_run (create_run env.runId w.id))
              "No relevant content found after curation." md ∧
        (execute_wintern env w store).result = Except.ok env.runId ∧
        (execute_wintern env w store).wintern = update_next_run_at env.now w) := by
  rcases hs : activeSources w with _ | ⟨s0, srest⟩
  · exact absurd hs h1
  rcases hd : activeDeliveries w with _ | ⟨d0, drest⟩
  · exact absurd hd h2
  rcases hne : newContent env w store ctx with _ | ⟨r0, rrest⟩
  · exact absurd hne h4
  rw [hne] at h5
  simp only [List.map_cons] at h5
  rcases hcur : curated.items with _ | ⟨i0, irest⟩
  · refine ⟨?_, ?_, fun _ => ?_⟩
    · simp only [execute_wintern, hs, hd, h3, hne, List.map_cons, h5, hcur]
    · simp [execute_wintern, hs, hd, h3, hne, List.map_cons, h5, hcur]
    · simp [execute_wintern, hs, hd, h3, hne, List.map_cons, h5, hcur,
        complete_run, start_run, create_run]
  · rcases hcomp : env.compose ⟨curated,
        delivery_type_to_agent_channel d0.delivery_type, w.context.take 200⟩
      with e | d
    · refine ⟨?_, ?_, fun hab => absurd hab (by simp)⟩
      · simp only [execute_wintern, hs, hd, h3, hne, List.map_cons, h5, hcur,
          hcomp]
      · simp [execute_wintern, hs, hd, h3, hne, List.map_cons, h5, hcur, hcomp]
    · refine ⟨?_, ?_, fun hab => absurd hab (by simp)⟩
      · simp only [execute_wintern, hs, hd, h3, hne, List.map_cons, h5, hcur,
          hcomp]
      · simp [execute_wintern, hs, hd, h3, hne, List.map_cons, h5, hcur, hcomp]

/-- Witness for C3: an environment whose curator scores nothing still records
the deduplicated items in the seen-content store. -/
theorem execute_wintern_records_seen_witness :
    (execute_wintern envCuratedEmpty wBasic []).store
      = (record_seen_content_batch [] wBasic.id envCuratedEmpty.runId
          (recordedItems envCuratedEmpty wBasic [] ⟨["q"]⟩)).fst :=
  (execute_wintern_records_seen_before_curation_check envCuratedEmpty wBasic []
    ⟨["q"]⟩ ⟨[], "nothing relevant"⟩ (by decide) (by decide) rfl (by decide)
    rfl).1

/-- C4: with no active sources the run is failed with the message
"No active sources configured" (which mentions sources), the wintern is still
rescheduled, and the specific NoSourcesConfiguredError propagates; with
active sources but no active deliveries the analogous delivery-specific
behaviour holds. -/
theorem execute_wintern_misconfigured (env : ExecEnv) (w : Wintern)
    (store : SeenStore) :
    (activeSources w = [] →
      (execute_wintern env w store).result
        = Except.error (ExecError.noSourcesConfigured w.id) ∧
      (execute_wintern env w store).run
        = fail_run (start_run (create_run env.runId w.id))
            "No active sources configured" initMetadata ∧
      (execute_wintern env w store).wintern = update_next_run_at env.now w ∧
      (∃ a b : String, "No active sources configured" = a ++ "sources" ++ b)) ∧
    (activeSources w ≠ [] → activeDeliveries w = [] →
      (execute_wintern env w store).result
        = Except.error (ExecError.noDeliveryConfigured w.id) ∧
      (execute_wintern env w store).run
        = fail_run (start_run (create_run env.runId w.id))
            "No active delivery channels configured" initMetadata ∧
      (execute_wintern env w store).wintern = update_next_run_at env.now w ∧
      (∃ a b : String, "No active delivery channels configured"
        = a ++ "delivery" ++ b)) := by
  constructor
  · intro h
    refine ⟨?_, ?_, ?_, "No active ", " configured", by decide⟩ <;>
      simp [execute_wintern, h]
  · intro h1 h2
    rcases hs : activeSources w with _ | ⟨s0, srest⟩
    · exact absurd hs h1
    refine ⟨?_, ?_, ?_, "No active ", " channels configured", by decide⟩ <;>
      simp [execute_wintern, hs, h2]

/-- Witness for C4: a wintern with only inactive sources fails with the
sources error, one with only inactive deliveries fails with the delivery
error. -/
theorem execute_wintern_misconfigured_witness :
    (execute_wintern envNoNew wNoSources []).result
        = Except.error (ExecError.noSourcesConfigured wNoSources.id) ∧
    (execute_wintern envNoNew wNoDeliveries []).result
        = Except.error (ExecError.noDeliveryConfigured wNoDeliveries.id) :=
  ⟨((execute_wintern_misconfigured envNoNew wNoSources []).1 (by decide)).1,
   ((execute_wintern_misconfigured envNoNew wNoDeliveries []).2
      (by decide) (by decide)).1⟩

/-- C6: during the search fan-out over every active source crossed with every
query, each per-(source, query) failure is caught and logged into the
terminal metadata source_errors as "source_name: message" (unsupported source
types contributing their own message), exactly as the closed-form
searchErrorsSpec states, and such failures never abort the run: whenever the
curator and composer succeed, the run result is the returned run id no matter
how many searches failed. -/
theorem execute_wintern_source_errors_nonfatal
    (env : ExecEnv) (w : Wintern) (store : SeenStore) (ctx : InterpretedContext)
    (h1 : activeSources w ≠ []) (h2 : activeDeliveries w ≠ [])
    (h3 : env.interpret w.context = Except.ok ctx) :
    (∃ md : RunMetadata,
      (execute_wintern env w store).run.metadata = some md ∧
      md.source_errors = searchErrorsSpec env (activeSources w) ctx.search_queries) ∧
    ((∀ ci : CuratorInput, ∃ c, env.curate ci = Except.ok c) →
     (∀ ci : ComposerInput, ∃ d, env.compose ci = Except.ok d) →
     (execute_wintern env w store).result = Except.ok env.runId) := by
  rcases hs : activeSources w with _ | ⟨s0, srest⟩
  · exact absurd hs h1
  rcases hd : activeDeliveries w with _ | ⟨d0, drest⟩
  · exact absurd hd h2
  rcases hne : newContent env w store ctx with _ | ⟨r0, rrest⟩
  · constructor
    · simp [execute_wintern, hs, hd, h3, hne, complete_run, start_run,
        create_run, searchPhase_spec]
    · intro _ _
      simp [execute_wintern, hs, hd, h3, hne]
  · rcases hcu : env.curate ⟨ctx, (r0 :: rrest).map search_result_to_scraped_item⟩
      with e | c
    all_goals simp only [List.map_cons] at hcu
    · constructor
      · simp [execute_wintern, hs, hd, h3, hne, List.map_cons, hcu, fail_run,
          start_run, create_run, searchPhase_spec]
      · intro hcu2 _
        obtain ⟨c, hc⟩ := hcu2 ⟨ctx, (r0 :: rrest).map search_result_to_scraped_item⟩
        simp only [List.map_cons] at hc
        rw [hc] at hcu
        exact Except.noConfusion hcu
    · rcases hcur : c.items with _ | ⟨i0, irest⟩
      · constructor
        · simp [execute_wintern, hs, hd, h3, hne, List.map_cons, hcu, hcur,
            complete_run, start_run, create_run, searchPhase_spec]
        · intro _ _
          simp [execute_wintern, hs, hd, h3, hne, List.map_cons, hcu, hcur]
      · rcases hcomp : env.compose ⟨c,
            delivery_type_to_agent_channel d0.delivery_type, w.context.take 200⟩
          with e2 | d
        · constructor
          · simp [execute_wintern, hs, hd, h3, hne, List.map_cons, hcu, hcur,
              hcomp, fail_run, start_run, create_run, searchPhase_spec]
          · intro hcu2 hco
            obtain ⟨d, hd2⟩ := hco ⟨c,
              delivery_type_to_agent_channel d0.delivery_type, w.context.take 200⟩
            rw [hd2] at hcomp
            exact Except.noConfusion hcomp
        · constructor
          · simp [execute_wintern, hs, hd, h3, hne, List.map_cons, hcu, hcur,
              hcomp, complete_run, start_run, create_run, searchPhase_spec]
          · intro _ _
            simp [execute_wintern, hs, hd, h3, hne, List.map_cons, hcu, hcur,
              hcomp]

/-- Witness for C6: an environment in which every search fails still
completes the run and returns the run id. -/
theorem execute_wintern_source_errors_nonfatal_witness :
    (execute_wintern envSearchesFail wBasic []).result = Except.ok 8 :=
  (execute_wintern_source_errors_nonfatal envSearchesFail wBasic [] ⟨["q"]⟩
    (by decide) (by decide) rfl).2
    (fun _ => ⟨⟨[], "nothing"⟩, rfl⟩)
    (fun _ => ⟨⟨"subject", "plain body", "slack body", 0⟩, rfl⟩)

/-- Witness for the amended C8 at a concrete wintern: all four preservation
facts at an active wintern with a schedule update. -/
theorem schedule_invariant_preservation_witness :
    scheduleInvariant (create_wintern 9 "topic" (some ⟨0, 9⟩) [] [] 0) ∧
    scheduleInvariant (update_wintern wBasic ⟨some true, some (some ⟨0, 9⟩)⟩ 0) ∧
    scheduleInvariant (delete_wintern wBasic) ∧
    (wBasic.is_active = true ∨ wBasic.cron_schedule = none →
      scheduleInvariant (update_next_run_at 0 wBasic)) :=
  schedule_invariant_preservation wBasic ⟨some true, some (some ⟨0, 9⟩)⟩ 9 "topic"
    (some ⟨0, 9⟩) [] [] 0 0 0 (by simp [scheduleInvariant, wBasic])

end WinternCore
